import Mathlib

/-!
# Verification of the quad-store conformance contract

The repository ships a black-box conformance suite (`graph/graphtest/graphtest.go`)
for a graph (quad) database core: a deduplicated value table plus edge index,
queried through a lazy-iterator algebra, with a writer providing add/remove
mutations and reference-counted node lifecycle.  The store, iterator, writer and
optimizer implementations themselves are external backends; here they are
modelled from the specification, and the concrete expectations encoded by the
conformance suite (fixture graphs, expected result sets, expected sizes) are
proved against that model.
-/

set_option maxRecDepth 100000

namespace Cayley

/-- Modelled from the spec (§3 Typed Value Model, not present in the sources):
tagged value union.  `float` carries an opaque 64-bit pattern (IEEE semantics
are out of scope); `time` is an instant in integer seconds. -/
inductive Value where
  | iri (s : String)
  | bnode (s : String)
  | str (s : String)
  | typedStr (s ty : String)
  | langStr (s lang : String)
  | int (i : Int)
  | float (bits : Nat)
  | bool (b : Bool)
  | time (t : Int)
  | raw (s : String)
deriving DecidableEq, Repr

/-- The four quad direction slots (§3). -/
inductive Direction where
  | subject
  | predicate
  | object
  | label
deriving DecidableEq, Repr

/-- Modelled from the spec (§3): a quad has three mandatory value slots and an
optional label. -/
structure Quad where
  sub : Value
  pred : Value
  obj : Value
  label : Option Value
deriving DecidableEq, Repr

/-- Value stored in a given direction slot of a quad (absent only for labels). -/
def Quad.get (q : Quad) : Direction → Option Value
  | .subject => some q.sub
  | .predicate => some q.pred
  | .object => some q.obj
  | .label => q.label

/-- Does the quad reference `v` in any of the four directions (§4.5)? -/
def Quad.references (q : Quad) (v : Value) : Bool :=
  decide (q.sub = v) || decide (q.pred = v) || decide (q.obj = v)
    || decide (q.label = some v)

/-- Modelled from the spec (§4.2 Quad Store, not present in the sources):
a deduplicated value table (`values`, insertion order; references are indices)
plus the edge list (`quads`, store-native insertion order). -/
structure Store where
  values : List Value
  quads : List Quad
deriving DecidableEq, Repr

def emptyStore : Store := ⟨[], []⟩

/-- Store well-formedness: the value table is deduplicated. -/
def Store.WF (s : Store) : Prop := s.values.Nodup

/-- `resolve(value) -> Reference | absent` (§4.2): index into the value table. -/
def Store.resolve (s : Store) (v : Value) : Option Nat :=
  if v ∈ s.values then some (s.values.indexOf v) else none

/-- `materialize(ref) -> Value | absent` (§4.2). -/
def Store.materialize (s : Store) (r : Nat) : Option Value :=
  s.values[r]?

/-- `size()` (§3): under the `NoPrimitives` capability flag the quad count;
otherwise the count of physical primitive records, one per quad plus one per
deduplicated value (the accounting the conformance suite expects from
primitive-record backends). -/
def Store.size (s : Store) (noPrimitives : Bool) : Nat :=
  if noPrimitives then s.quads.length else s.quads.length + s.values.length

/-- `quadIterator(direction, ref)` (§4.2): all quads whose given direction
holds the referenced value, in store order. -/
def Store.quadIteratorRef (s : Store) (d : Direction) (r : Nat) : List Quad :=
  match s.materialize r with
  | some v => s.quads.filter fun q => decide (q.get d = some v)
  | none => []

/-- `quadIterator` composed with `resolve`, as the conformance suite invokes it
(`qs.QuadIterator(d, qs.ValueOf(v))`); an unresolved value yields no quads. -/
def Store.quadIteratorV (s : Store) (d : Direction) (v : Value) : List Quad :=
  match s.resolve v with
  | some r => s.quadIteratorRef d r
  | none => []

/-- The direction values of a quad, in slot order (label when present). -/
def Quad.slotValues (q : Quad) : List Value :=
  [q.sub, q.pred, q.obj] ++ q.label.toList

/-- Insert a value into the deduplicated table if not yet present. -/
def insertValue (vs : List Value) (v : Value) : List Value :=
  if v ∈ vs then vs else vs ++ [v]

/-- Error kinds of the writer contract (§7). -/
inductive GraphErr where
  | quadExists
  | quadNotExist
  | iterationFailure
deriving DecidableEq, Repr

/-- The `QuadNotExist` recognition predicate (§7): a typed test on the error,
not string matching.  `none` (no error) is not a `QuadNotExist`. -/
def IsQuadNotExist : Option GraphErr → Bool
  | some .quadNotExist => true
  | _ => false

/-- Modelled from the spec (§4.5 Writer, not present in the sources):
`addQuad` registers each referenced value in the table, then inserts the quad;
a duplicate is an error under strict mode and a skip under `ignore_duplicate`. -/
def addQuad (ignoreDup : Bool) (s : Store) (q : Quad) : Except GraphErr Store :=
  if q ∈ s.quads then
    if ignoreDup then .ok s else .error .quadExists
  else
    .ok ⟨q.slotValues.foldl insertValue s.values, s.quads ++ [q]⟩

/-- `addQuadSet` (§4.5): sequential batch of `addQuad`, aborting on the first
error (so under `ignore_duplicate` duplicates are skipped, never fatal). -/
def addQuadSet (ignoreDup : Bool) (s : Store) : List Quad → Except GraphErr Store
  | [] => .ok s
  | q :: qs =>
    match addQuad ignoreDup s q with
    | .ok s' => addQuadSet ignoreDup s' qs
    | .error e => .error e

/-- Garbage collection of the value table (§3 Primitive): keep exactly the
values still referenced by some quad. -/
def gcValues (vs : List Value) (qs : List Quad) : List Value :=
  vs.filter fun v => qs.any fun q => q.references v

/-- `removeQuad` (§4.5): fails with `QuadNotExist` when absent; otherwise
removes the quad and reclaims values whose reference count reached zero. -/
def removeQuad (s : Store) (q : Quad) : Except GraphErr Store :=
  if q ∈ s.quads then
    let qs := s.quads.erase q
    .ok ⟨gcValues s.values qs, qs⟩
  else
    .error .quadNotExist

/-- Mutation-style view of `removeQuad`: the error raised (if any) together
with the store after the call — a failing call leaves the store untouched. -/
def applyRemove (s : Store) (q : Quad) : Option GraphErr × Store :=
  match removeQuad s q with
  | .ok s' => (none, s')
  | .error e => (some e, s)

/-- Store after an `addQuad` that is expected to succeed (identity on error). -/
def applyAdd (ignoreDup : Bool) (s : Store) (q : Quad) : Store :=
  match addQuad ignoreDup s q with
  | .ok s' => s'
  | .error _ => s

/-- Store after an `addQuadSet` that is expected to succeed (identity on error). -/
def applyAddSet (ignoreDup : Bool) (s : Store) (qs : List Quad) : Store :=
  match addQuadSet ignoreDup s qs with
  | .ok s' => s'
  | .error _ => s

/-- `removeNode` (§4.5): drops every quad referencing the value in any
direction, then applies the same value-reclamation rule as `removeQuad`. -/
def removeNode (s : Store) (v : Value) : Store :=
  let qs := s.quads.filter fun q => !(q.references v)
  ⟨gcValues s.values qs, qs⟩

/-- Shorthand for the conformance fixture's untyped node values. -/
def nv (s : String) : Value := .str s

/-- A quad as the fixture constructs them (`quad.Make`, absent label). -/
def mk3 (s p o : String) : Quad := ⟨nv s, nv p, nv o, none⟩

/-- A quad with a label, as the fixture's status quads. -/
def mk4 (s p o l : String) : Quad := ⟨nv s, nv p, nv o, some (nv l)⟩

/-- The eleven-quad conformance fixture graph (`MakeQuadSet`). -/
def makeQuadSet : List Quad :=
  [ mk3 "A" "follows" "B"
  , mk3 "C" "follows" "B"
  , mk3 "C" "follows" "D"
  , mk3 "D" "follows" "B"
  , mk3 "B" "follows" "F"
  , mk3 "F" "follows" "G"
  , mk3 "D" "follows" "G"
  , mk3 "E" "follows" "F"
  , mk4 "B" "status" "cool" "status_graph"
  , mk4 "D" "status" "cool" "status_graph"
  , mk4 "G" "status" "cool" "status_graph" ]

/-- The store after loading the fixture graph. -/
def fixtureStore : Store := applyAddSet false emptyStore makeQuadSet

/-- The single quad of `TestLoadOneQuad`. -/
def oneQuad : Quad := ⟨nv "Something", nv "points_to", nv "Something Else",
  some (nv "context")⟩

/-- The store after adding `oneQuad` to an empty store. -/
def oneQuadStore : Store := applyAdd false emptyStore oneQuad

example : fixtureStore.quads.length = 11 := by decide
example : fixtureStore.values.length = 11 := by decide
example : oneQuadStore.size false = 5 := by decide
example : oneQuadStore.size true = 1 := by decide

/-! ## Iterator algebra (§4.3) -/

/-- Modelled from the spec (§4.3, not present in the sources): the observable
denotation of a quad-level iterator — the sequence its `next` protocol
enumerates and its `contains` membership test. -/
structure Iter where
  seq : List Quad
  mem : Quad → Bool

/-- An iterator is well-formed when `contains` agrees with membership in its
`next` enumeration (true of every store-derived iterator on its own store's
tokens). -/
def IterWF (it : Iter) : Prop := ∀ q : Quad, it.mem q = true ↔ q ∈ it.seq

/-- `And` join (§4.3): the first sub-iterator drives `next`, the second filters
via `contains`; `contains` requires acceptance by both. -/
def andIter (a b : Iter) : Iter :=
  ⟨a.seq.filter b.mem, fun q => a.mem q && b.mem q⟩

/-- A store's quad iterator packaged with its membership test. -/
def storeQuadIter (s : Store) (d : Direction) (v : Value) : Iter :=
  ⟨s.quadIteratorV d v, fun q => decide (q ∈ s.quadIteratorV d v)⟩

/-- `LinksTo` membership (§4.3): the quad's value at the given direction is
accepted by the value-level sub-iterator's `contains`. -/
def linksToContains (sub : Value → Bool) (d : Direction) (q : Quad) : Bool :=
  match q.get d with
  | some v => sub v
  | none => false

/-- Membership test of `And(LinksTo(Fixed{p}, Predicate), LinksTo(All, Object))`
over quads: predicate equals `p` and the object is a stored node (§4.3). -/
def innerAndContains (s : Store) (p : Value) (q : Quad) : Bool :=
  linksToContains (fun v => decide (v = p)) .predicate q
    && linksToContains (fun v => decide (v ∈ s.values)) .object q

/-- Modelled from the spec (§4.3 HasA / §8, not present in the sources): for a
candidate subject `v`, the object bindings of the `All` sub-iterator that the
`contains`/`nextPath` protocol of `HasA(innerAnd, Subject)` produces — one per
quad with subject `v` accepted by the inner join, in store order; `nextPath`
returns false after the last. -/
def hasaPathObjs (s : Store) (p v : Value) : List Value :=
  ((s.quadIteratorV .subject v).filter (innerAndContains s p)).map Quad.obj

/-- Top-level `next` results of `And(Fixed(vals), HasA(innerAnd, Subject))`:
a fixed value is yielded iff `HasA.contains` finds a justifying quad. -/
def outerAndResults (s : Store) (p : Value) (fixedVals : List Value) : List Value :=
  fixedVals.filter fun v => !(hasaPathObjs s p v).isEmpty

/-! ## Comparison iterator and within-tag order (§3, §4.3) -/

/-- The comparison operators of the Comparison iterator (§4.3). -/
inductive Operator where
  | lt
  | lte
  | gt
  | gte
deriving DecidableEq, Repr

/-- Three-way comparison of code-point sequences (lexicographic). -/
def natListCompare : List Nat → List Nat → Ordering
  | [], [] => .eq
  | [], _ :: _ => .lt
  | _ :: _, [] => .gt
  | a :: as, b :: bs =>
    if a < b then .lt else if b < a then .gt else natListCompare as bs

/-- Lexicographic string comparison by code points. -/
def strCompare (a b : String) : Ordering :=
  natListCompare (a.data.map Char.toNat) (b.data.map Char.toNat)

/-- Three-way integer comparison. -/
def intCompare (a b : Int) : Ordering :=
  if a < b then .lt else if b < a then .gt else .eq

/-- Modelled from the spec (§3, not present in the sources): the within-tag
order — `some` of the three-way comparison when the two values share a tag
(lexicographic for text-like tags, numeric for Integer, chronological for
Timestamp; Float is ordered by its opaque bit pattern, IEEE semantics being out
of the claims' scope), and `none` across different tags, where order is
unspecified. -/
def tagCompare : Value → Value → Option Ordering
  | .iri a, .iri b => some (strCompare a b)
  | .bnode a, .bnode b => some (strCompare a b)
  | .str a, .str b => some (strCompare a b)
  | .typedStr a ta, .typedStr b tb =>
    some (match strCompare a b with | .eq => strCompare ta tb | o => o)
  | .langStr a la, .langStr b lb =>
    some (match strCompare a b with | .eq => strCompare la lb | o => o)
  | .int a, .int b => some (intCompare a b)
  | .float a, .float b => some (intCompare a b)
  | .bool a, .bool b => some (intCompare (cond a 1 0) (cond b 1 0))
  | .time a, .time b => some (intCompare a b)
  | .raw a, .raw b => some (strCompare a b)
  | _, _ => none

/-- Do two values carry the same tag (so that their order is defined)? -/
def sameTag (a b : Value) : Bool := (tagCompare a b).isSome

/-- Does the three-way outcome satisfy the operator? -/
def opHolds : Operator → Ordering → Bool
  | .lt, o => decide (o = .lt)
  | .lte, o => !decide (o = .gt)
  | .gt, o => decide (o = .gt)
  | .gte, o => !decide (o = .lt)

/-- The Comparison iterator's acceptance test (§4.3): a candidate passes iff it
shares the pivot's tag and the within-tag relation holds; a tag mismatch is a
plain rejection (a total `Bool`, never an error — §7). -/
def comparisonAccepts (op : Operator) (pivot cand : Value) : Bool :=
  match tagCompare cand pivot with
  | some o => opHolds op o
  | none => false

/-- Is the value a Timestamp? -/
def Value.isTime : Value → Bool
  | .time _ => true
  | _ => false

/-- Base instant of the typed-comparison fixture (seconds). -/
def tzero : Int := 1700000000

def tPlus1h : Int := tzero + 3600

def tPlus49h : Int := tPlus1h + 48 * 3600

def tPlus365d : Int := tzero + 365 * 24 * 3600

/-- The typed-value comparison fixture (`TestCompareTypedValues`): blank nodes,
IRIs, plain strings, the integers 100, 112, 110, 20 and four timestamps. -/
def compareQuads : List Quad :=
  [ ⟨.bnode "alice", .bnode "bob", .bnode "charlie", some (.bnode "dani")⟩
  , ⟨.iri "alice", .iri "bob", .iri "charlie", some (.iri "dani")⟩
  , ⟨.str "alice", .str "bob", .str "charlie", some (.str "dani")⟩
  , ⟨.int 100, .int 112, .int 110, some (.int 20)⟩
  , ⟨.time tzero, .time tPlus1h, .time tPlus49h, some (.time tPlus365d)⟩ ]

/-- The store after loading the typed-comparison fixture. -/
def compareStore : Store := applyAddSet false emptyStore compareQuads

example : compareStore.values.length = 20 := by decide
example : compareStore.values.filter (comparisonAccepts .gte (.int 110))
    = [.int 112, .int 110] := by decide
example : compareStore.values.filter (comparisonAccepts .gt (.time tPlus1h))
    = [.time tPlus49h, .time tPlus365d] := by decide
example : compareStore.values.filter (comparisonAccepts .lt (.bnode "b"))
    = [.bnode "alice"] := by decide

/-! ## Shape and optimizer (§4.4) -/

/-- Modelled from the spec (§4.4, not present in the sources): declarative
query-plan shapes.  `valueRange` is the backend-specific index range scan that
the comparison rewrite produces on backends declaring that capability. -/
inductive Shape where
  | allNodes
  | compare (sub : Shape) (op : Operator) (v : Value)
  | valueRange (op : Operator) (v : Value)
deriving DecidableEq, Repr

/-- `buildIterator(store, shape)` (§4.4): the value sequence the compiled
iterator enumerates. -/
def buildIterator (s : Store) : Shape → List Value
  | .allNodes => s.values
  | .compare sub op v => (buildIterator s sub).filter (comparisonAccepts op v)
  | .valueRange op v => s.values.filter (comparisonAccepts op v)

/-- `optimize(shape) -> (shape', changed)` (§4.4): gated by the backend's
`OptimizesComparison` capability, rewrites a comparison over all nodes into the
backend's range scan; otherwise returns the identical shape unchanged. -/
def optimizeShape (optimizesComparison : Bool) : Shape → Shape × Bool
  | .compare .allNodes op v =>
    if optimizesComparison then (.valueRange op v, true)
    else (.compare .allNodes op v, false)
  | sh => (sh, false)

/-! ## Derived fixture states for the mutation claims -/

/-- The fixture store after `removeQuad (E, follows, F)`. -/
def afterRemoveEF : Store := (applyRemove fixtureStore (mk3 "E" "follows" "F")).2

/-- The fixture store after `removeNode "D"`. -/
def afterRemoveD : Store := removeNode fixtureStore (nv "D")

/-- The duplicate-tolerant batch of `TestAddRemove`: two duplicates and two new
quads, one introducing the fresh node `X`. -/
def batchQuads : List Quad :=
  [ mk3 "A" "follows" "B"
  , mk3 "F" "follows" "B"
  , mk3 "C" "follows" "D"
  , mk3 "X" "follows" "B" ]

/-- The fixture store after the duplicate-tolerant batch add. -/
def afterBatch : Store := applyAddSet true fixtureStore batchQuads

example : (andIter (storeQuadIter fixtureStore .label (nv "status_graph"))
      (storeQuadIter fixtureStore .subject (nv "B"))).seq
    = [mk4 "B" "status" "cool" "status_graph"] := by decide
example : (andIter (storeQuadIter fixtureStore .subject (nv "B"))
      (storeQuadIter fixtureStore .label (nv "status_graph"))).seq
    = [mk4 "B" "status" "cool" "status_graph"] := by decide
example : outerAndResults fixtureStore (nv "follows") [nv "C"] = [nv "C"] := by
  decide
example : hasaPathObjs fixtureStore (nv "follows") (nv "C")
    = [nv "B", nv "D"] := by decide
example : fixtureStore.quadIteratorV .subject (nv "C")
    = [mk3 "C" "follows" "B", mk3 "C" "follows" "D"] := by decide
example : fixtureStore.quadIteratorV .object (nv "F")
    = [mk3 "B" "follows" "F", mk3 "E" "follows" "F"] := by decide
example : (andIter (storeQuadIter fixtureStore .subject (nv "B"))
      (storeQuadIter fixtureStore .object (nv "F"))).seq
    = [mk3 "B" "follows" "F"] := by decide
example : afterRemoveEF.quadIteratorV .subject (nv "E") = [] := by decide
example : afterRemoveEF.quads
    = [ mk3 "A" "follows" "B", mk3 "C" "follows" "B", mk3 "C" "follows" "D"
      , mk3 "D" "follows" "B", mk3 "B" "follows" "F", mk3 "F" "follows" "G"
      , mk3 "D" "follows" "G", mk4 "B" "status" "cool" "status_graph"
      , mk4 "D" "status" "cool" "status_graph"
      , mk4 "G" "status" "cool" "status_graph" ] := by decide
example : afterRemoveD.quads
    = [ mk3 "A" "follows" "B", mk3 "C" "follows" "B", mk3 "B" "follows" "F"
      , mk3 "F" "follows" "G", mk3 "E" "follows" "F"
      , mk4 "B" "status" "cool" "status_graph"
      , mk4 "G" "status" "cool" "status_graph" ] := by decide
example : afterRemoveD.values
    = [ nv "A", nv "follows", nv "B", nv "C", nv "F", nv "G", nv "E"
      , nv "status", nv "cool", nv "status_graph" ] := by decide
example : (addQuadSet true fixtureStore batchQuads).toOption = some afterBatch := by
  decide
example : afterBatch.quads = makeQuadSet ++ [mk3 "F" "follows" "B", mk3 "X" "follows" "B"] := by
  decide
example : nv "X" ∈ afterBatch.values := by decide
example : (applyRemove fixtureStore (mk3 "A" "follows" "B")).1 = none := by decide

/-! ## Claim theorems -/

/-- C1 (counterexample): `size()` is not independent of the backend's physical
record layout — the conformance suite requires a primitive-record backend to
report 5 after adding a single quad to an empty store (one quad record plus
four value records), not 1; only under the `NoPrimitives` capability is the
count 1. -/
theorem size_depends_on_record_layout :
    oneQuadStore.size false = 5 ∧ oneQuadStore.size true = 1 ∧
    oneQuadStore.size false ≠ 1 := by decide

/-- C1 (amended): `size()` is governed by the backend's record-layout
capability flag: under `NoPrimitives` it is the stored quad count (1 after one
quad, 11 after the fixture set); for primitive-record backends it counts one
record per quad plus one per deduplicated value (5 after one quad, 22 after
the fixture set). -/
theorem size_by_capability :
    oneQuadStore.quads.length = 1 ∧ fixtureStore.quads.length = 11 ∧
    oneQuadStore.size true = 1 ∧ fixtureStore.size true = 11 ∧
    oneQuadStore.size false = 5 ∧ fixtureStore.size false = 22 := by decide

/-- C2: over any well-formed store, every stored value survives the
`resolve`/`materialize` roundtrip, and every materializable reference survives
the `materialize`/`resolve` roundtrip (hash/identity). -/
theorem resolve_materialize_roundtrip (s : Store) (v : Value) (r : Nat)
    (hwf : s.WF) :
    (v ∈ s.values → (s.resolve v).bind s.materialize = some v) ∧
    (s.materialize r = some v → s.resolve v = some r) := by
  constructor
  · intro hv
    rw [Store.resolve, if_pos hv]
    exact List.getElem?_indexOf hv
  · intro hr
    rcases List.getElem?_eq_some.mp hr with ⟨hlt, hget⟩
    have hv : v ∈ s.values := hget ▸ List.getElem_mem hlt
    rw [Store.resolve, if_pos hv, ← hget, List.indexOf_getElem hwf]

/-- C2 (witness): the roundtrips hold concretely on the loaded fixture store at
value `B`, which resolves to reference 2. -/
theorem resolve_materialize_roundtrip_witness :
    fixtureStore.values.Nodup ∧
    (fixtureStore.resolve (nv "B")).bind fixtureStore.materialize
      = some (nv "B") ∧
    fixtureStore.resolve (nv "B") = some 2 :=
  ⟨by decide,
   (resolve_materialize_roundtrip fixtureStore (nv "B") 2
     (by unfold Store.WF; decide)).1 (by decide),
   (resolve_materialize_roundtrip fixtureStore (nv "B") 2
     (by unfold Store.WF; decide)).2 (by decide)⟩

/-- C3: for any two well-formed sub-iterators the result set of `And(A,B)`
equals that of `And(B,A)`; concretely, intersecting the fixture's label
iterator for `status_graph` with the subject iterator for `B` yields exactly
the quad `(B, status, cool, status_graph)` in either argument order. -/
theorem and_result_set_order_independent :
    (∀ a b : Iter, IterWF a → IterWF b →
        (andIter a b).seq.toFinset = (andIter b a).seq.toFinset) ∧
    (andIter (storeQuadIter fixtureStore .label (nv "status_graph"))
        (storeQuadIter fixtureStore .subject (nv "B"))).seq
      = [mk4 "B" "status" "cool" "status_graph"] ∧
    (andIter (storeQuadIter fixtureStore .subject (nv "B"))
        (storeQuadIter fixtureStore .label (nv "status_graph"))).seq
      = [mk4 "B" "status" "cool" "status_graph"] := by
  refine ⟨fun a b ha hb => ?_, by decide, by decide⟩
  ext q
  simp only [andIter, List.mem_toFinset, List.mem_filter, ha q, hb q]
  exact and_comm

/-- C3 (witness): the general order-independence instantiated at the fixture's
label and subject iterators. -/
theorem and_result_set_order_independent_witness :
    (andIter (storeQuadIter fixtureStore .label (nv "status_graph"))
        (storeQuadIter fixtureStore .subject (nv "B"))).seq.toFinset
      = (andIter (storeQuadIter fixtureStore .subject (nv "B"))
        (storeQuadIter fixtureStore .label (nv "status_graph"))).seq.toFinset :=
  and_result_set_order_independent.1
    (storeQuadIter fixtureStore .label (nv "status_graph"))
    (storeQuadIter fixtureStore .subject (nv "B"))
    (by intro q; simp [IterWF, storeQuadIter])
    (by intro q; simp [IterWF, storeQuadIter])

/-- C4: on the fixture graph, the join of `Fixed("C")` against
`HasA(And(LinksTo(Fixed("follows"), Predicate), LinksTo(AllNodes, Object)),
Subject)` yields exactly the one top-level result `C`, and the alternate
object bindings enumerated for it (the first by `contains`, the rest by
`nextPath`, which then returns false) are exactly `B` and `D`. -/
theorem nextPath_enumerates_alternate_bindings :
    outerAndResults fixtureStore (nv "follows") [nv "C"] = [nv "C"] ∧
    hasaPathObjs fixtureStore (nv "follows") (nv "C") = [nv "B", nv "D"] := by
  decide

/-- C5 (counterexample): the typed-comparison fixture stores exactly four
timestamps (T, T+1h, T+49h, T+365d), not five as the claim describes. -/
theorem compare_fixture_has_four_timestamps :
    (compareStore.values.filter Value.isTime).length = 4 ∧
    (compareStore.values.filter Value.isTime).length ≠ 5 := by decide

/-- C5 (amended): a Comparison iterator accepts a candidate only when its tag
equals the pivot's tag (a mismatch is a silent rejection, never an error), and
over the fixture holding blank nodes, IRIs, plain strings, the integers
100, 112, 110, 20 and four timestamps, operator GTE with pivot Integer 110
yields exactly the set of integers 110 and 112, and operator GT with pivot
Timestamp T+1h yields exactly the timestamps T+49h and T+365d. -/
theorem comparison_tag_and_order :
    (∀ (op : Operator) (p c : Value),
        sameTag c p = false → comparisonAccepts op p c = false) ∧
    compareStore.values.filter (comparisonAccepts .gte (.int 110))
      = [.int 112, .int 110] ∧
    compareStore.values.filter (comparisonAccepts .gt (.time tPlus1h))
      = [.time tPlus49h, .time tPlus365d] := by
  refine ⟨fun op p c h => ?_, by decide, by decide⟩
  unfold comparisonAccepts
  cases htc : tagCompare c p with
  | none => rfl
  | some o => simp [sameTag, htc] at h

/-- C5 (witness): a plain string candidate against an integer pivot is a tag
mismatch and is rejected by the Comparison acceptance test. -/
theorem comparison_tag_and_order_witness :
    sameTag (Value.str "x") (Value.int 110) = false ∧
    comparisonAccepts .gte (.int 110) (.str "x") = false :=
  ⟨by decide, comparison_tag_and_order.1 .gte (.int 110) (.str "x") (by decide)⟩

/-- C6: on the loaded fixture graph, the subject iterator for `C` enumerates
exactly (C,follows,B) and (C,follows,D), the object iterator for `F` exactly
(B,follows,F) and (E,follows,F), and the And of the subject iterator for `B`
with the object iterator for `F` yields exactly (B,follows,F). -/
theorem fixture_quad_iterators :
    fixtureStore.quadIteratorV .subject (nv "C")
      = [mk3 "C" "follows" "B", mk3 "C" "follows" "D"] ∧
    fixtureStore.quadIteratorV .object (nv "F")
      = [mk3 "B" "follows" "F", mk3 "E" "follows" "F"] ∧
    (andIter (storeQuadIter fixtureStore .subject (nv "B"))
        (storeQuadIter fixtureStore .object (nv "F"))).seq
      = [mk3 "B" "follows" "F"] := by decide

/-- C7: removing (E,follows,F) from the fixture succeeds, empties the subject
iterator for `E`, and leaves exactly the other ten quads in `allQuads()`;
removing node `D` leaves exactly the seven quads not referencing `D` in any
direction and drops exactly `D` from `allNodes()`. -/
theorem delete_quad_and_node_frame :
    (applyRemove fixtureStore (mk3 "E" "follows" "F")).1 = none ∧
    afterRemoveEF.quadIteratorV .subject (nv "E") = [] ∧
    afterRemoveEF.quads
      = [ mk3 "A" "follows" "B", mk3 "C" "follows" "B", mk3 "C" "follows" "D"
        , mk3 "D" "follows" "B", mk3 "B" "follows" "F", mk3 "F" "follows" "G"
        , mk3 "D" "follows" "G", mk4 "B" "status" "cool" "status_graph"
        , mk4 "D" "status" "cool" "status_graph"
        , mk4 "G" "status" "cool" "status_graph" ] ∧
    afterRemoveD.quads
      = fixtureStore.quads.filter (fun q => !(q.references (nv "D"))) ∧
    afterRemoveD.quads
      = [ mk3 "A" "follows" "B", mk3 "C" "follows" "B", mk3 "B" "follows" "F"
        , mk3 "F" "follows" "G", mk3 "E" "follows" "F"
        , mk4 "B" "status" "cool" "status_graph"
        , mk4 "G" "status" "cool" "status_graph" ] ∧
    afterRemoveD.values
      = [ nv "A", nv "follows", nv "B", nv "C", nv "F", nv "G", nv "E"
        , nv "status", nv "cool", nv "status_graph" ] := by decide

/-- C8: for any store with a deduplicated quad list, removing a present quad
succeeds, and immediately repeating the removal fails with an error recognized
by the `QuadNotExist` predicate while leaving `size()` unchanged under either
accounting mode (the failed removal mutates nothing). -/
theorem remove_twice_quad_not_exist (s : Store) (q : Quad)
    (hq : q ∈ s.quads) (hn : s.quads.Nodup) :
    (applyRemove s q).1 = none ∧
    IsQuadNotExist (applyRemove (applyRemove s q).2 q).1 = true ∧
    (applyRemove (applyRemove s q).2 q).2.size true
      = (applyRemove s q).2.size true ∧
    (applyRemove (applyRemove s q).2 q).2.size false
      = (applyRemove s q).2.size false := by
  have h1 : removeQuad s q
      = .ok ⟨gcValues s.values (s.quads.erase q), s.quads.erase q⟩ := by
    rw [removeQuad, if_pos hq]
  have hne : q ∉ s.quads.erase q := fun hmem =>
    (hn.mem_erase_iff.mp hmem).1 rfl
  have h2 : removeQuad
      (⟨gcValues s.values (s.quads.erase q), s.quads.erase q⟩ : Store) q
      = .error .quadNotExist := by
    rw [removeQuad, if_neg hne]
  simp [applyRemove, h1, h2, IsQuadNotExist]

/-- C8 (witness): the double-removal contract holds concretely on the fixture
store at the quad (A,follows,B). -/
theorem remove_twice_quad_not_exist_witness :
    (mk3 "A" "follows" "B" ∈ fixtureStore.quads) ∧
    fixtureStore.quads.Nodup ∧
    IsQuadNotExist
      (applyRemove (applyRemove fixtureStore (mk3 "A" "follows" "B")).2
        (mk3 "A" "follows" "B")).1 = true :=
  ⟨by decide, by decide,
   (remove_twice_quad_not_exist fixtureStore (mk3 "A" "follows" "B")
     (by decide) (by decide)).2.1⟩

/-- C9: `optimize` returns the identical shape whenever it reports
`changed=false`, and whenever it reports `changed=true` the rewritten shape
differs from the original while `buildIterator` compiles both to the same
result sequence over every store; the comparison rewrite never fires without
the backend capability flag and always fires on a comparison over all nodes
with it. -/
theorem optimize_soundness (flag : Bool) (sh : Shape) (st : Store)
    (op : Operator) (v : Value) :
    ((optimizeShape flag sh).2 = false → (optimizeShape flag sh).1 = sh) ∧
    ((optimizeShape flag sh).2 = true →
      (optimizeShape flag sh).1 ≠ sh ∧
      buildIterator st (optimizeShape flag sh).1 = buildIterator st sh) ∧
    optimizeShape false sh = (sh, false) ∧
    (optimizeShape true (.compare .allNodes op v)).2 = true := by
  have hfalse : ∀ sh' : Shape, optimizeShape false sh' = (sh', false) := by
    intro sh'
    cases sh' with
    | allNodes => rfl
    | valueRange o w => rfl
    | compare sub o w => cases sub <;> rfl
  refine ⟨?_, ?_, hfalse sh, rfl⟩
  · intro h
    cases flag
    · rw [hfalse]
    · cases sh with
      | allNodes => rfl
      | valueRange o w => rfl
      | compare sub o w =>
        cases sub with
        | allNodes => simp [optimizeShape] at h
        | valueRange o2 w2 => rfl
        | compare s2 o2 w2 => rfl
  · intro h
    cases flag
    · rw [hfalse sh] at h
      simp at h
    · cases sh with
      | allNodes => simp [optimizeShape] at h
      | valueRange o w => simp [optimizeShape] at h
      | compare sub o w =>
        cases sub with
        | allNodes => exact ⟨by simp [optimizeShape], rfl⟩
        | valueRange o2 w2 => simp [optimizeShape] at h
        | compare s2 o2 w2 => simp [optimizeShape] at h

/-- C9 (witness): on the typed-comparison store, optimizing the comparison of
all nodes against Integer 110 under the capability flag changes the shape and
preserves the compiled result sequence. -/
theorem optimize_soundness_witness :
    (optimizeShape true (Shape.compare .allNodes .gte (.int 110))).1
        ≠ Shape.compare .allNodes .gte (.int 110) ∧
    buildIterator compareStore
        (optimizeShape true (Shape.compare .allNodes .gte (.int 110))).1
      = buildIterator compareStore (Shape.compare .allNodes .gte (.int 110)) :=
  (optimize_soundness true (Shape.compare .allNodes .gte (.int 110))
    compareStore .gte (.int 110)).2.1 (by decide)

/-- C10: under `ignore_duplicate`, the batch add of two duplicates and two new
quads on top of the fixture succeeds, inserts exactly the two non-duplicate
quads (raising the stored quad count by exactly 2), and makes the fresh node
`X` appear in `allNodes()`. -/
theorem batch_add_ignores_duplicates :
    (addQuadSet true fixtureStore batchQuads).toOption = some afterBatch ∧
    afterBatch.quads
      = makeQuadSet ++ [mk3 "F" "follows" "B", mk3 "X" "follows" "B"] ∧
    afterBatch.quads.length = fixtureStore.quads.length + 2 ∧
    nv "X" ∈ afterBatch.values := by decide

end Cayley
